import Mathlib

/-!
# Verification of the security-notification and WAF log-router lambdas

Shallow embedding of the three Python source files of this repository:

* `src/security/security_notification/lambda/security_alert_email_handler.py`
* `src/security/security_notification/lambda/security_alert_slack_handler.py`
* `src/security/waf/lambda/waf_log_router.py`

Python values that originate from `json.loads` are modelled by the inductive
type `Json` below (JSON numbers are modelled as integers; no claim concerns
fractional numbers).  A Python exception escaping a piece of code is modelled
by `Except.error` with a descriptive message; the message text itself is a
model artefact, only the fact that an exception is raised is meaningful.
Environment-variable configuration, read at module import time in the source,
is passed to the embedded handlers as explicit parameters.  The outcome of the
single outbound network call (SES `send_email` / the webhook HTTP POST) is an
oracle parameter `transport : Except String Unit`.
-/

/-- A parsed JSON value, the result of Python `json.loads`.  Object fields are
kept in order; keys coming out of `json.loads` are unique, and lookups take the
first binding. -/
inductive Json where
  | null
  | bool (b : Bool)
  | num (n : Int)
  | str (s : String)
  | arr (elems : List Json)
  | obj (fields : List (String × Json))

/-- First-binding association-list lookup, modelling Python dict key lookup. -/
def lookupF : List (String × Json) → String → Option Json
  | [], _ => none
  | (k, v) :: rest, key => if k = key then some v else lookupF rest key

/-- A single apostrophe character, used by the Python `repr` of strings. -/
def pyQuote : String := String.singleton (Char.ofNat 39)

/-- Comma-space separated join, as Python uses between `repr` elements. -/
def joinSep (sep : String) : List String → String
  | [] => ""
  | [x] => x
  | x :: y :: rest => x ++ sep ++ joinSep sep (y :: rest)

mutual
/-- Python `repr` of a JSON-derived value (`None`, `True`, numbers, quoted
strings, lists, dicts).  String escaping inside `repr` is not reproduced; no
code path in the claims depends on the `repr` of a string-containing value. -/
def Json.pyRepr : Json → String
  | .null => "None"
  | .bool true => "True"
  | .bool false => "False"
  | .num n => toString n
  | .str s => pyQuote ++ s ++ pyQuote
  | .arr xs => "[" ++ joinSep ", " (Json.pyReprList xs) ++ "]"
  | .obj kvs => "\x7b" ++ joinSep ", " (Json.pyReprFields kvs) ++ "\x7d"

def Json.pyReprList : List Json → List String
  | [] => []
  | x :: xs => Json.pyRepr x :: Json.pyReprList xs

def Json.pyReprFields : List (String × Json) → List String
  | [] => []
  | (k, v) :: xs => (pyQuote ++ k ++ pyQuote ++ ": " ++ Json.pyRepr v) :: Json.pyReprFields xs
end

/-- Python `str(value)`: identity on strings, `repr`-like rendering otherwise
(`str(None) = "None"`, `str(5) = "5"`, ...). -/
def Json.pyStr : Json → String
  | .str s => s
  | j => j.pyRepr

/-- Python truthiness of a JSON-derived value (`bool(value)`). -/
def Json.truthy : Json → Bool
  | .null => false
  | .bool b => b
  | .num n => n != 0
  | .str s => s != ""
  | .arr xs => !xs.isEmpty
  | .obj kvs => !kvs.isEmpty

/-- ASCII upper-casing, modelling Python `str.upper()` on the ASCII strings
that occur in this pipeline. -/
def strUpper (s : String) : String := String.mk (s.toList.map Char.toUpper)

/-- `needle` is a prefix of `hay` (character lists). -/
def listStarts : List Char → List Char → Bool
  | [], _ => true
  | _ :: _, [] => false
  | a :: as, b :: bs => a == b && listStarts as bs

/-- Substring test used by Python `key in someString`. -/
def listHasSub (needle : List Char) : List Char → Bool
  | [] => listStarts needle []
  | c :: cs => listStarts needle (c :: cs) || listHasSub needle cs

/-- `strHasSub hay needle`: Python `needle in hay` for strings. -/
def strHasSub (hay needle : String) : Bool := listHasSub needle.toList hay.toList

/-- Python `value.get(key, default)`: total on dicts, raises `AttributeError`
on any other receiver. -/
def Json.pyGetD : Json → String → Json → Except String Json
  | .obj kvs, k, d => .ok ((lookupF kvs k).getD d)
  | _, _, _ => .error "AttributeError: get"

/-- Python `key in value` for a string key: key membership on dicts, element
membership on lists, substring test on strings, `TypeError` otherwise. -/
def Json.pyContains : Json → String → Except String Bool
  | .obj kvs, k => .ok (kvs.any (fun kv => kv.1 == k))
  | .arr xs, k =>
      .ok (xs.any (fun x => match x with | .str s => s == k | _ => false))
  | .str s, k => .ok (strHasSub s k)
  | _, _ => .error "TypeError: argument not a container"

/-- Python `value[key]` for a string key: dict lookup (`KeyError` when the key
is missing), `TypeError` on lists, strings and scalars. -/
def Json.pyIdxStr : Json → String → Except String Json
  | .obj kvs, k =>
      match lookupF kvs k with
      | some v => .ok v
      | none => .error ("KeyError: " ++ k)
  | _, _ => .error "TypeError: indices must be integers"

/-- Python `value[0]`: first list element (`IndexError` when empty), first
character of a string, `KeyError` on a string-keyed dict, `TypeError`
otherwise. -/
def Json.pyIdx0 : Json → Except String Json
  | .arr (x :: _) => .ok x
  | .arr [] => .error "IndexError: list index out of range"
  | .str s =>
      if h : s.toList = [] then .error "IndexError: string index out of range"
      else .ok (.str (String.singleton (s.toList.head h)))
  | .obj _ => .error "KeyError: 0"
  | _ => .error "TypeError: not subscriptable"

/-- Python `for x in value`: the iteration sequence (list elements, dict keys,
string characters), `TypeError` on non-iterables. -/
def Json.pyIter : Json → Except String (List Json)
  | .arr xs => .ok xs
  | .obj kvs => .ok (kvs.map (fun kv => Json.str kv.1))
  | .str s => .ok (s.toList.map (fun c => Json.str (String.singleton c)))
  | _ => .error "TypeError: not iterable"

/-- Python `value.upper()`: total on strings, `AttributeError` otherwise. -/
def Json.pyUpper : Json → Except String String
  | .str s => .ok (strUpper s)
  | _ => .error "AttributeError: upper"

/-- One hex digit, lower case, as produced by Python `json.dumps` escapes. -/
def hexDigit (n : Nat) : Char :=
  if n < 10 then Char.ofNat (48 + n) else Char.ofNat (87 + n)

/-- Four-digit hexadecimal rendering for a `\uXXXX` escape. -/
def hex4 (n : Nat) : String :=
  String.mk [hexDigit (n / 4096 % 16), hexDigit (n / 256 % 16),
             hexDigit (n / 16 % 16), hexDigit (n % 16)]

/-- Escaping of one character under Python `json.dumps` with its default
`ensure_ascii=True`: quote and backslash escaped, the usual short escapes,
`\uXXXX` for other control or non-ASCII characters, surrogate pairs above
the basic plane. -/
def jsonEscChar (c : Char) : String :=
  let n := c.toNat
  if n = 34 then "\\\"" else
  if n = 92 then "\\\\" else
  if n = 8 then "\\b" else
  if n = 9 then "\\t" else
  if n = 10 then "\\n" else
  if n = 12 then "\\f" else
  if n = 13 then "\\r" else
  if n < 32 then "\\u" ++ hex4 n else
  if n < 127 then String.singleton c else
  if n ≤ 65535 then "\\u" ++ hex4 n else
    "\\u" ++ hex4 (55296 + (n - 65536) / 1024) ++ "\\u" ++ hex4 (56320 + (n - 65536) % 1024)

/-- A JSON string literal as rendered by `json.dumps`. -/
def jsonQuote (s : String) : String :=
  "\"" ++ String.join (s.toList.map jsonEscChar) ++ "\""

mutual
/-- Python `json.dumps(value, indent=2)` at indentation level `ind`:
used by both handlers when embedding the `types`/`threats` arrays into the
rendered alert text. -/
def jsonDumps2At (ind : Nat) : Json → String
  | .null => "null"
  | .bool true => "true"
  | .bool false => "false"
  | .num n => toString n
  | .str s => jsonQuote s
  | .arr [] => "[]"
  | .arr (x :: xs) =>
      let pad := String.mk (List.replicate (ind + 2) ' ')
      "[\n" ++ pad ++
        joinSep (",\n" ++ pad) (jsonDumps2List (ind + 2) (x :: xs)) ++
        "\n" ++ String.mk (List.replicate ind ' ') ++ "]"
  | .obj [] => "\x7b\x7d"
  | .obj (kv :: kvs) =>
      let pad := String.mk (List.replicate (ind + 2) ' ')
      "\x7b\n" ++ pad ++
        joinSep (",\n" ++ pad) (jsonDumps2Fields (ind + 2) (kv :: kvs)) ++
        "\n" ++ String.mk (List.replicate ind ' ') ++ "\x7d"

def jsonDumps2List (ind : Nat) : List Json → List String
  | [] => []
  | x :: xs => jsonDumps2At ind x :: jsonDumps2List ind xs

def jsonDumps2Fields (ind : Nat) : List (String × Json) → List String
  | [] => []
  | (k, v) :: kvs => (jsonQuote k ++ ": " ++ jsonDumps2At ind v) :: jsonDumps2Fields ind kvs
end

/-- `json.dumps(value, indent=2)`. -/
def jsonDumps2 (j : Json) : String := jsonDumps2At 0 j

/-- The canonical finding record produced by the normalization section of each
handler (the block of local variables `title`, `severity`, ... in
`lambda_handler`).  Each field holds the Python value of the variable of the
same name once the normalization block has finished; `created_at = Json.null`
models Python `None`.  `remediation` is extracted by the email handler only;
the chat handler's source has no remediation extraction and the field stays at
the empty-string default there. -/
structure NormalizedFinding where
  title : Json
  severity : Json
  product : Json
  account : Json
  region : Json
  resource : Json
  description : Json
  console_url : Json
  created_at : Json
  types : Json
  threats : Json
  remediation : Json

/-- The default Security Hub console link (both handlers, identical literal). -/
def defaultConsoleUrl : String := "https://console.aws.amazon.com/securityhub/home"

/-- `ALLOWED_SEVERITIES` (both handlers): the alert-worthy severity set. -/
def ALLOWED_SEVERITIES : List String := ["CRITICAL", "HIGH"]

/-- `SEVERITY_COLOR` (both handlers): severity to accent color. -/
def SEVERITY_COLOR : List (String × String) :=
  [("CRITICAL", "#8B0000"), ("HIGH", "#FF0000"), ("MEDIUM", "#FFA500"),
   ("LOW", "#FFFF00"), ("INFORMATIONAL", "#439FE0"), ("UNKNOWN", "#CCCCCC")]

/-- `SEVERITY_COLOR.get(sev, SEVERITY_COLOR["UNKNOWN"])` as used by the chat
handler and the email body. -/
def severityColor (sev : String) : String :=
  ((SEVERITY_COLOR.lookup sev).getD ((SEVERITY_COLOR.lookup "UNKNOWN").getD ""))

/-- The structured-variant resource loop (both handlers, identical code):
`for r in resources: if r.get("type") == "AWS::EC2::Instance": resource =
r.get("uid", resource); tags = r.get("Tags", {}); if "Name" in tags: resource
= f"{tags['Name']} ({resource})"; break`.  `res` is the running value of the
`resource` variable. -/
def resolveStructured : List Json → Json → Except String Json
  | [], res => .ok res
  | r :: rest, res => do
      let t ← r.pyGetD "type" .null
      match t with
      | .str s =>
          if s = "AWS::EC2::Instance" then do
            let res1 ← r.pyGetD "uid" res
            let tags ← r.pyGetD "Tags" (.obj [])
            let hasName ← tags.pyContains "Name"
            if hasName then do
              let nm ← tags.pyIdxStr "Name"
              pure (.str (nm.pyStr ++ " (" ++ res1.pyStr ++ ")"))
            else
              pure res1
          else
            resolveStructured rest res
      | _ => resolveStructured rest res

/-- The classic-variant resource block (both handlers, identical code):
`resources = ...; if resources: resource = resources[0].get("Id", resource);
tags = resources[0].get("Tags", {}); if "Name" in tags: ...`. -/
def resolveClassic (resources : Json) (res : Json) : Except String Json := do
  if resources.truthy then do
    let r0 ← resources.pyIdx0
    let res1 ← r0.pyGetD "Id" res
    let r0' ← resources.pyIdx0
    let tags ← r0'.pyGetD "Tags" (.obj [])
    let hasName ← tags.pyContains "Name"
    if hasName then do
      let nm ← tags.pyIdxStr "Name"
      pure (.str (nm.pyStr ++ " (" ++ res1.pyStr ++ ")"))
    else
      pure res1
  else
    pure res

/-- The test on source line `if "detail" in message and "findings" in
message["detail"]` that guards the whole findings branch (identical in both
handlers), including Python short-circuiting and the exceptions either operand
can raise. -/
def findingsCond (message : Json) : Except String Bool := do
  let hasDetail ← message.pyContains "detail"
  if hasDetail then do
    let detail ← message.pyIdxStr "detail"
    detail.pyContains "findings"
  else
    pure false

/-- The `Remediation` extraction shared by both branches of the email handler:
`remediation_info = finding.get("Remediation", {}); if remediation_info:
recommendation = remediation_info.get("Recommendation", {}); remediation =
recommendation.get("Text", "")`. -/
def extractRemediation (finding : Json) : Except String Json := do
  let remInfo ← finding.pyGetD "Remediation" (.obj [])
  if remInfo.truthy then do
    let recommendation ← remInfo.pyGetD "Recommendation" (.obj [])
    recommendation.pyGetD "Text" (.str "")
  else
    pure (.str "")

/-- Normalization section of the email handler (`lambda_handler`, source
lines 49-136): defaults, the findings branch with its OCSF and classic
sub-branches.  `Except.error` models a Python exception escaping this block
(the block is not inside any `try`). -/
def normalizeEmail (message : Json) : Except String NormalizedFinding := do
  let account0 ← message.pyGetD "account" (.str "Unknown")
  let region0 ← message.pyGetD "region" (.str "Unknown")
  let cond ← findingsCond message
  if cond then do
    let detail ← message.pyIdxStr "detail"
    let findings ← detail.pyIdxStr "findings"
    let finding ← findings.pyIdx0
    let console_url ← finding.pyGetD "SourceUrl" (.str defaultConsoleUrl)
    let hasFI ← finding.pyContains "finding_info"
    if hasFI then do
      let title ← finding.pyGetD "title" (.str "Security Finding")
      let sev0 ← finding.pyGetD "severity" (.str "UNKNOWN")
      let severity := if sev0.truthy then sev0 else Json.str "UNKNOWN"
      let created_at ← finding.pyGetD "created_time_dt" .null
      let fi ← finding.pyGetD "finding_info" (.obj [])
      let description ← fi.pyGetD "desc" (.str "")
      let cloud ← finding.pyGetD "cloud" (.obj [])
      let cloudAccount ← cloud.pyGetD "account" (.obj [])
      let account ← cloudAccount.pyGetD "uid" account0
      let region ← cloud.pyGetD "region" region0
      let metadata ← finding.pyGetD "metadata" (.obj [])
      let metaProduct ← metadata.pyGetD "product" (.obj [])
      let product ← metaProduct.pyGetD "name" (.str "Security Hub")
      let types ← finding.pyGetD "types" (.arr [])
      let threats ← finding.pyGetD "Threats" (.arr [])
      let remediation ← extractRemediation finding
      let resourcesVal ← finding.pyGetD "resources" (.arr [])
      let resourceSeq ← resourcesVal.pyIter
      let resource ← resolveStructured resourceSeq (.str "Unknown")
      pure { title, severity, product, account, region, resource, description,
             console_url, created_at, types, threats, remediation }
    else do
      let title ← finding.pyGetD "Title" (.str "Security Finding")
      let description ← finding.pyGetD "Description" (.str "")
      let sevObj ← finding.pyGetD "Severity" (.obj [])
      let sev0 ← sevObj.pyGetD "Label" (.str "UNKNOWN")
      let severity := if sev0.truthy then sev0 else Json.str "UNKNOWN"
      let product ← finding.pyGetD "ProductName" (.str "Security Hub")
      let account ← finding.pyGetD "AwsAccountId" account0
      let region ← finding.pyGetD "Region" region0
      let created_at ← finding.pyGetD "CreatedAt" .null
      let types ← finding.pyGetD "Types" (.arr [])
      let threats ← finding.pyGetD "Threats" (.arr [])
      let remediation ← extractRemediation finding
      let resources ← finding.pyGetD "Resources" (.arr [])
      let resource ← resolveClassic resources (.str "Unknown")
      pure { title, severity, product, account, region, resource, description,
             console_url, created_at, types, threats, remediation }
  else
    pure { title := .str "Security Finding", severity := .str "UNKNOWN",
           product := .str "Security Hub", account := account0, region := region0,
           resource := .str "Unknown", description := .str "",
           console_url := .str defaultConsoleUrl, created_at := .null,
           types := .arr [], threats := .arr [], remediation := .str "" }

/-- Normalization section of the chat (Slack) handler (`lambda_handler`,
source lines 43-117): identical to the email handler's except that no
remediation is extracted (the chat handler's source has no such block);
the `remediation` field stays at the empty-string default. -/
def normalizeSlack (message : Json) : Except String NormalizedFinding := do
  let account0 ← message.pyGetD "account" (.str "Unknown")
  let region0 ← message.pyGetD "region" (.str "Unknown")
  let cond ← findingsCond message
  if cond then do
    let detail ← message.pyIdxStr "detail"
    let findings ← detail.pyIdxStr "findings"
    let finding ← findings.pyIdx0
    let console_url ← finding.pyGetD "SourceUrl" (.str defaultConsoleUrl)
    let hasFI ← finding.pyContains "finding_info"
    if hasFI then do
      let title ← finding.pyGetD "title" (.str "Security Finding")
      let sev0 ← finding.pyGetD "severity" (.str "UNKNOWN")
      let severity := if sev0.truthy then sev0 else Json.str "UNKNOWN"
      let created_at ← finding.pyGetD "created_time_dt" .null
      let fi ← finding.pyGetD "finding_info" (.obj [])
      let description ← fi.pyGetD "desc" (.str "")
      let cloud ← finding.pyGetD "cloud" (.obj [])
      let cloudAccount ← cloud.pyGetD "account" (.obj [])
      let account ← cloudAccount.pyGetD "uid" account0
      let region ← cloud.pyGetD "region" region0
      let metadata ← finding.pyGetD "metadata" (.obj [])
      let metaProduct ← metadata.pyGetD "product" (.obj [])
      let product ← metaProduct.pyGetD "name" (.str "Security Hub")
      let types ← finding.pyGetD "types" (.arr [])
      let threats ← finding.pyGetD "Threats" (.arr [])
      let resourcesVal ← finding.pyGetD "resources" (.arr [])
      let resourceSeq ← resourcesVal.pyIter
      let resource ← resolveStructured resourceSeq (.str "Unknown")
      pure { title, severity, product, account, region, resource, description,
             console_url, created_at, types, threats, remediation := .str "" }
    else do
      let title ← finding.pyGetD "Title" (.str "Security Finding")
      let description ← finding.pyGetD "Description" (.str "")
      let sevObj ← finding.pyGetD "Severity" (.obj [])
      let sev0 ← sevObj.pyGetD "Label" (.str "UNKNOWN")
      let severity := if sev0.truthy then sev0 else Json.str "UNKNOWN"
      let product ← finding.pyGetD "ProductName" (.str "Security Hub")
      let account ← finding.pyGetD "AwsAccountId" account0
      let region ← finding.pyGetD "Region" region0
      let created_at ← finding.pyGetD "CreatedAt" .null
      let types ← finding.pyGetD "Types" (.arr [])
      let threats ← finding.pyGetD "Threats" (.arr [])
      let resources ← finding.pyGetD "Resources" (.arr [])
      let resource ← resolveClassic resources (.str "Unknown")
      pure { title, severity, product, account, region, resource, description,
             console_url, created_at, types, threats, remediation := .str "" }
  else
    pure { title := .str "Security Finding", severity := .str "UNKNOWN",
           product := .str "Security Hub", account := account0, region := region0,
           resource := .str "Unknown", description := .str "",
           console_url := .str defaultConsoleUrl, created_at := .null,
           types := .arr [], threats := .arr [], remediation := .str "" }

/-- The caller-visible invocation result: the three structured outcomes
`{"status": "ok"}`, `{"status": "suppressed", "severity": <original value>}`
and `{"status": "error", "error": <message>}`. -/
inductive HandlerResult where
  | ok
  | suppressed (severity : Json)
  | error (msg : String)

/-- Truthiness of an environment-variable value: `os.environ.get` yields
`None` (here `none`) when the variable is unset, and `not value` is also true
for the empty string. -/
def configTruthyStr : Option String → Bool
  | none => false
  | some s => s != ""

/-- Email delivery configuration, read from the process environment when the
source module loads (`FROM_EMAIL`, `TO_EMAILS`).  `toEmails` is the value of
`os.environ.get("TO_EMAILS", "").split(",")`; a split never yields an empty
list, but the model keeps the source's guard for the empty list as well. -/
structure EmailConfig where
  fromEmail : Option String
  toEmails : List String

/-- `send_email` (email handler, source lines 171-452).  Returns the Python
outcome of the call (`Except.error` = an exception raised out of
`send_email`), the number of SES transport calls made, and whether the
body-construction point was reached.  The HTML and plain-text bodies
(lines 187-426) are pure f-string formatting of the arguments with no failure
path and no effect on the result, and are not modelled field by field; the one
failure-capable operation in the request construction is the subject's
`title[:80]`, which raises `TypeError` when the normalized `title` value is
neither a string nor a list.  The SES call itself is the `transport` oracle. -/
def send_email (cfg : EmailConfig) (transport : Except String Unit)
    (nf : NormalizedFinding) : Except String Unit × Nat × Bool :=
  if configTruthyStr cfg.fromEmail = false then
    (.error "FROM_EMAIL not set", 0, false)
  else
    match cfg.toEmails with
    | [] => (.error "TO_EMAILS not set", 0, false)
    | e0 :: _ =>
      if e0 = "" then (.error "TO_EMAILS not set", 0, false)
      else
        match nf.title with
        | .str _ => (transport, 1, true)
        | .arr _ => (transport, 1, true)
        | _ => (.error "TypeError: title is not subscriptable", 0, true)

/-- The severity gate and dispatch of the email handler (`lambda_handler`,
source lines 138-168): upper-case `str(severity)`, suppress when not in
`ALLOWED_SEVERITIES`, otherwise call `send_email` inside `try`, converting
any exception into the error outcome.  The `Nat` is the transport-call count
and the `Bool` records whether rendering was reached. -/
def emailAfterNormalize (cfg : EmailConfig) (transport : Except String Unit)
    (nf : NormalizedFinding) : HandlerResult × Nat × Bool :=
  let normalizedSev := strUpper nf.severity.pyStr
  if ALLOWED_SEVERITIES.contains normalizedSev = false then
    (.suppressed nf.severity, 0, false)
  else
    match send_email cfg transport nf with
    | (.ok _, n, r) => (.ok, n, r)
    | (.error e, n, r) => (.error e, n, r)

/-- The full email `lambda_handler`.  The SNS unwrap block (source lines
40-47) is a `try`/`except Exception` around `event["Records"][0]["Sns"]` and
`json.loads(sns["Message"])`; its outcome is modelled by the `unwrapped`
parameter: `.error e` when any exception was raised there (converted to the
error outcome), `.ok message` with the parsed message otherwise.  The outer
`Except` is an exception escaping the invocation boundary (the normalization
block is not inside any `try`). -/
def email_lambda_handler (cfg : EmailConfig) (transport : Except String Unit)
    (unwrapped : Except String Json) : Except String (HandlerResult × Nat × Bool) :=
  match unwrapped with
  | .error e => .ok (.error e, 0, false)
  | .ok message => do
      let nf ← normalizeEmail message
      pure (emailAfterNormalize cfg transport nf)

/-- The chat attachment text (Slack handler, source lines 132-152): the
f-string block, the conditional `Types`/`Threats` fenced blocks, and the
console link line. -/
def attachmentText (projectName : String) (normalizedSev : String)
    (nf : NormalizedFinding) : String :=
  let severityEmoji := if normalizedSev = "CRITICAL" then "🔴" else "🟠"
  let base :=
    "\n*[" ++ projectName ++ "] " ++ severityEmoji ++ " " ++ nf.severity.pyStr ++
    " Security Finding*\n\n*Title:* " ++ nf.title.pyStr ++
    "\n*Severity:* " ++ nf.severity.pyStr ++
    "\n*Source:* " ++ nf.product.pyStr ++
    "\n*Account:* " ++ nf.account.pyStr ++
    "\n*Region:* " ++ nf.region.pyStr ++
    "\n*Resource:* " ++ nf.resource.pyStr ++
    "\n\n*Description:*\n" ++ nf.description.pyStr ++ "\n"
  let base := if nf.types.truthy then
      base ++ "\n*Types:*\n```" ++ jsonDumps2 nf.types ++ "```" else base
  let base := if nf.threats.truthy then
      base ++ "\n*Threats:*\n```" ++ jsonDumps2 nf.threats ++ "```" else base
  base ++ "\n<" ++ nf.console_url.pyStr ++ "|Open in AWS Console>"

/-- The chat payload (Slack handler, source lines 154-162): note that the
`footer` key is always present; its value is the `CreatedAt:` string when
`created_at` is truthy and Python `None` (JSON `null`) otherwise. -/
def slackPayload (projectName : String) (normalizedSev : String)
    (nf : NormalizedFinding) : Json :=
  .obj [("attachments", .arr [
    .obj [("color", .str (severityColor normalizedSev)),
          ("text", .str (attachmentText projectName normalizedSev nf)),
          ("footer", if nf.created_at.truthy
                     then .str ("CreatedAt: " ++ nf.created_at.pyStr)
                     else .null)]])]

/-- `send_to_slack` (Slack handler, source lines 175-187): raise when the
webhook URL is unset or empty, otherwise POST the payload (the `transport`
oracle; any non-exception response counts as success). -/
def send_to_slack (webhook : Option String) (transport : Except String Unit) :
    Except String Unit × Nat :=
  if configTruthyStr webhook = false then
    (.error "SLACK_WEBHOOK_URL not set", 0)
  else
    (transport, 1)

/-- The severity gate, rendering and dispatch of the Slack handler
(`lambda_handler`, source lines 119-172).  The rendered payload is built
before the `try` around `send_to_slack`; the `Option Json` component is the
rendered payload (`none` when the invocation suppressed before rendering). -/
def slackAfterNormalize (projectName : String) (webhook : Option String)
    (transport : Except String Unit) (nf : NormalizedFinding) :
    HandlerResult × Nat × Option Json :=
  let normalizedSev := strUpper nf.severity.pyStr
  if ALLOWED_SEVERITIES.contains normalizedSev = false then
    (.suppressed nf.severity, 0, none)
  else
    let payload := slackPayload projectName normalizedSev nf
    match send_to_slack webhook transport with
    | (.ok _, n) => (.ok, n, some payload)
    | (.error e, n) => (.error e, n, some payload)

/-- The full chat `lambda_handler`, with the SNS unwrap outcome passed in as
for `email_lambda_handler`. -/
def slack_lambda_handler (projectName : String) (webhook : Option String)
    (transport : Except String Unit) (unwrapped : Except String Json) :
    Except String (HandlerResult × Nat × Option Json) :=
  match unwrapped with
  | .error e => .ok (.error e, 0, none)
  | .ok message => do
      let nf ← normalizeSlack message
      pure (slackAfterNormalize projectName webhook transport nf)

/-- `sanitize_log` applied to a value that is already a string: the
`re.sub(r'[\r\n\t]', ' ', value)` replacement. -/
def sanitizeStr (s : String) : String :=
  String.mk (s.toList.map (fun c =>
    if c.toNat == 13 || c.toNat == 10 || c.toNat == 9 then ' ' else c))

/-- `sanitize_log` (WAF log router, source lines 10-18): convert non-string
values with `str(...)`, then strip carriage returns, newlines and tabs. -/
def sanitize_log (v : Json) : String := sanitizeStr v.pyStr

/-- One entry of the log router's output list.  A `partitionKey = none`
models the `metadata`/`partitionKeys` block being absent from the entry
(the `ProcessingFailed` shape); `some k` models
`metadata.partitionKeys.log_type = k`. -/
structure OutputRecord where
  recordId : String
  result : String
  data : Json
  partitionKey : Option String

/-- `base64.b64decode` applied to a JSON-derived value: only strings are
acceptable input here; any other value raises `TypeError`.  The actual
decoding (and the subsequent `json.loads`) is the `decode` oracle of
`processRecord`. -/
def b64Input : Json → Except String String
  | .str s => .ok s
  | _ => .error "TypeError: argument should be a bytes-like object or ASCII string"

/-- The body of the `try` block of the WAF log router (source lines 30-56),
after the `record["data"]` lookup: decode and parse the payload, read and
upper-case the `action` field (default `"ALLOW"`), sanitize it, classify the
partition, and build the `Ok` output entry.  `decode` composes
`base64.b64decode` with `json.loads`, returning `.error` when either
raises. -/
def routeAttempt (decode : String → Except String Json) (record_id : String)
    (dataJ : Json) : Except String OutputRecord := do
  let b64 ← b64Input dataJ
  let waf_log ← decode b64
  let actionRaw ← waf_log.pyGetD "action" (.str "ALLOW")
  let actionUpper ← actionRaw.pyUpper
  let action := sanitizeStr actionUpper
  let log_type := if action = "BLOCK" then "blocked" else "allowed"
  pure { recordId := record_id, result := "Ok", data := dataJ,
         partitionKey := some log_type }

/-- Processing of one record of the batch (the loop body, source lines
26-71).  The `recordId` extraction happens before the `try` block, so its
exceptions escape; the `except` branch performs `record["data"]` again, so a
record with no `data` key raises `KeyError` out of the whole handler. -/
def processRecord (decode : String → Except String Json) (record : Json) :
    Except String OutputRecord := do
  let recordIdVal ← record.pyGetD "recordId" (.str "unknown")
  let record_id := sanitize_log recordIdVal
  match (do
      let dataJ ← record.pyIdxStr "data"
      routeAttempt decode record_id dataJ : Except String OutputRecord) with
  | .ok out => pure out
  | .error _ => do
      let dataJ ← record.pyIdxStr "data"
      pure { recordId := record_id, result := "ProcessingFailed", data := dataJ,
             partitionKey := none }

/-- The `for record in records` loop of the WAF log router: process each
record in turn, accumulating the output list; an exception from
`processRecord` (one escaping its `try` block) aborts the whole loop. -/
def processAll (decode : String → Except String Json) :
    List Json → Except String (List OutputRecord)
  | [] => .ok []
  | r :: rest => do
      let o ← processRecord decode r
      let os ← processAll decode rest
      pure (o :: os)

/-- The WAF log router `lambda_handler` (source lines 20-78): iterate
`event.get("records", [])`, processing each record in turn; per-record
decode failures are absorbed by `processRecord`, while exceptions outside
its `try` block escape the handler.  Returns the `records` list of the
response. -/
def waf_lambda_handler (decode : String → Except String Json) (event : Json) :
    Except String (List OutputRecord) := do
  let recordsVal ← event.pyGetD "records" (.arr [])
  let records ← recordsVal.pyIter
  processAll decode records

/-- A valid email delivery configuration used in concrete instantiations. -/
def cfgGood : EmailConfig :=
  { fromEmail := some "sec@example.com", toEmails := ["ops@example.com"] }

/-- An email configuration with no sender configured. -/
def cfgNoFrom : EmailConfig := { fromEmail := none, toEmails := ["ops@example.com"] }

/-- The all-defaults normalized finding, produced by both normalizers for an
object message with no findings branch. -/
def nfDefault : NormalizedFinding :=
  { title := .str "Security Finding", severity := .str "UNKNOWN",
    product := .str "Security Hub", account := .str "Unknown",
    region := .str "Unknown", resource := .str "Unknown", description := .str "",
    console_url := .str defaultConsoleUrl, created_at := .null,
    types := .arr [], threats := .arr [], remediation := .str "" }

/-- A normalized finding with severity `Medium`. -/
def nfMedium : NormalizedFinding := { nfDefault with severity := .str "Medium" }

/-- A normalized finding with severity `High`. -/
def nfHigh : NormalizedFinding := { nfDefault with severity := .str "High" }

/-- A normalized finding with severity `CRITICAL`. -/
def nfCritical : NormalizedFinding := { nfDefault with severity := .str "CRITICAL" }

/-- A message whose `detail.findings` array is present but empty. -/
def emptyFindingsMessage : Json := .obj [("detail", .obj [("findings", .arr [])])]

/-- Field lookup inside the single attachment of a chat payload. -/
def attachmentField (payload : Json) (key : String) : Option Json :=
  match payload with
  | .obj [("attachments", .arr [.obj kvs])] => lookupF kvs key
  | _ => none

/-- A classic-variant `CRITICAL` finding message carrying no `CreatedAt`
timestamp, delivered through the chat handler. -/
def noTimestampMessage : Json :=
  .obj [("detail", .obj [("findings", .arr [
    .obj [("Severity", .obj [("Label", .str "CRITICAL")])]])])]

/-- A concrete decode oracle for `base64.b64decode` followed by `json.loads`,
used in concrete instantiations below.  Each branch maps the genuine base64
encoding of the JSON text named in it to its parsed value:
`eyJhY3Rpb24iOiAiQkxPQ0sifQ==` is `{"action": "BLOCK"}`,
`eyJhY3Rpb24iOiAiYmxvY2sifQ==` is `{"action": "block"}`, and
`eyJhY3Rpb24iOiA0Mn0=` is `{"action": 42}`. -/
def decodeTable : String → Except String Json := fun s =>
  if s = "eyJhY3Rpb24iOiAiQkxPQ0sifQ==" then .ok (.obj [("action", .str "BLOCK")])
  else if s = "eyJhY3Rpb24iOiAiYmxvY2sifQ==" then .ok (.obj [("action", .str "block")])
  else if s = "eyJhY3Rpb24iOiA0Mn0=" then .ok (.obj [("action", .num 42)])
  else .error "binascii.Error: invalid base64-encoded string"

/-- An entry of a structured `resources` array that is a dict whose `type`
value (`None` when absent) is not the string `"AWS::EC2::Instance"`. -/
def notEC2Typed : Json → Bool
  | .obj kvs =>
      match (lookupF kvs "type").getD .null with
      | .str s => s != "AWS::EC2::Instance"
      | _ => true
  | _ => false

/-- A structured-variant message whose finding carries an EC2 instance
resource `i-123` tagged `Name=web-1`. -/
def structuredResourceMessage : Json :=
  .obj [("detail", .obj [("findings", .arr [
    .obj [("finding_info", .obj [("desc", .str "d")]),
          ("severity", .str "High"),
          ("resources", .arr [.obj [("type", .str "AWS::EC2::Instance"),
                                    ("uid", .str "i-123"),
                                    ("Tags", .obj [("Name", .str "web-1")])]])]])])]

/-- A classic-variant message whose finding's first resource is `i-456` with
no `Name` tag. -/
def classicResourceMessage : Json :=
  .obj [("detail", .obj [("findings", .arr [
    .obj [("Resources", .arr [.obj [("Id", .str "i-456")]])]])])]

/-- A structured-variant message whose finding's resources array is non-empty
but contains no EC2-instance-typed entry. -/
def s3ResourceMessage : Json :=
  .obj [("detail", .obj [("findings", .arr [
    .obj [("finding_info", .obj []),
          ("severity", .str "High"),
          ("resources", .arr [.obj [("type", .str "AWS::S3::Bucket"),
                                    ("uid", .str "bucket-1")]])]])])]

/-- Reduction of `Except` bind on a success, used to unfold the embedded
`do` chains. -/
@[simp] theorem exceptBindOk {α β ε : Type} (a : α) (f : α → Except ε β) :
    (Except.ok a >>= f : Except ε β) = f a := rfl

/-- Reduction of `Except` bind on a failure. -/
@[simp] theorem exceptBindError {α β ε : Type} (e : ε) (f : α → Except ε β) :
    (Except.error e >>= f : Except ε β) = Except.error e := rfl

/-- Reduction of `Except` map on a success. -/
@[simp] theorem exceptMapOk {α β ε : Type} (a : α) (f : α → β) :
    (f <$> (Except.ok a : Except ε α)) = Except.ok (f a) := rfl

/-- Reduction of `Except` map on a failure. -/
@[simp] theorem exceptMapError {α β ε : Type} (e : ε) (f : α → β) :
    (f <$> (Except.error e : Except ε α)) = Except.error e := rfl

/-- `pure` into `Except` is `Except.ok`. -/
@[simp] theorem exceptPureEq {α ε : Type} (a : α) :
    (pure a : Except ε α) = Except.ok a := rfl

/-- Claim C1 as stated is false: the normalization block of each handler sits
outside both `try` blocks, and for a successfully parsed message whose
`detail.findings` array is present but empty, `message["detail"]["findings"][0]`
raises `IndexError`, which escapes the invocation boundary of both the email
and the chat handler instead of being converted to a structured outcome. -/
theorem c1_counterexample :
    email_lambda_handler cfgGood (.ok ()) (.ok emptyFindingsMessage)
      = .error "IndexError: list index out of range"
    ∧ slack_lambda_handler "AWS" (some "https://hooks.example.com/T") (.ok ())
        (.ok emptyFindingsMessage)
      = .error "IndexError: list index out of range" :=
  ⟨rfl, rfl⟩

/-- Claim C1, amended: every failure of the SNS unwrap step is converted to
the structured error outcome, and whenever normalization completes without
raising, each handler returns one of the three structured outcomes (the
`HandlerResult` type: ok, suppressed, or error) without raising; normalization
itself, however, can raise for a successfully parsed message — for example
`IndexError` when `detail.findings` is present but empty — and such an
exception escapes the invocation boundary. -/
theorem c1_amended (cfg : EmailConfig) (pn : String) (wh : Option String)
    (t1 t2 : Except String Unit) (e : String) (m : Json)
    (nf1 nf2 : NormalizedFinding) :
    email_lambda_handler cfg t1 (.error e) = .ok (.error e, 0, false)
    ∧ slack_lambda_handler pn wh t2 (.error e) = .ok (.error e, 0, none)
    ∧ (normalizeEmail m = .ok nf1 →
        email_lambda_handler cfg t1 (.ok m) = .ok (emailAfterNormalize cfg t1 nf1))
    ∧ (normalizeSlack m = .ok nf2 →
        slack_lambda_handler pn wh t2 (.ok m)
          = .ok (slackAfterNormalize pn wh t2 nf2)) := by
  refine ⟨rfl, rfl, ?_, ?_⟩ <;> intro h <;>
    simp [email_lambda_handler, slack_lambda_handler, h]

/-- Concrete instantiation of the amended claim C1 on the empty object
message, whose normalization succeeds with all defaults. -/
theorem c1_amended_witness :
    email_lambda_handler cfgGood (.ok ()) (.ok (.obj []))
      = .ok (emailAfterNormalize cfgGood (.ok ()) nfDefault)
    ∧ slack_lambda_handler "AWS" (some "https://hooks.example.com/T") (.ok ())
        (.ok (.obj []))
      = .ok (slackAfterNormalize "AWS" (some "https://hooks.example.com/T")
          (.ok ()) nfDefault) :=
  ⟨(c1_amended cfgGood "AWS" (some "https://hooks.example.com/T") (.ok ()) (.ok ())
      "x" (.obj []) nfDefault nfDefault).2.2.1 rfl,
   (c1_amended cfgGood "AWS" (some "https://hooks.example.com/T") (.ok ()) (.ok ())
      "x" (.obj []) nfDefault nfDefault).2.2.2 rfl⟩

/-- Both dispatchers suppress a normalized finding whose severity string does
not upper-case into the alert-worthy set, with no transport call and nothing
rendered. -/
theorem suppressed_of_low_severity (cfg : EmailConfig) (t1 t2 : Except String Unit)
    (pn : String) (wh : Option String) (nf : NormalizedFinding) (s : String)
    (hsev : nf.severity = Json.str s)
    (hlow : ALLOWED_SEVERITIES.contains (strUpper s) = false) :
    emailAfterNormalize cfg t1 nf = (.suppressed (Json.str s), 0, false)
    ∧ slackAfterNormalize pn wh t2 nf = (.suppressed (Json.str s), 0, none) := by
  have hlow' : ¬ strUpper s ∈ ALLOWED_SEVERITIES := by simpa using hlow
  constructor <;>
    simp [emailAfterNormalize, slackAfterNormalize, hsev, Json.pyStr, hlow']

/-- Claim C2: for every normalized finding whose severity string, after
upper-casing, is not in the alert-worthy set, both handlers return the
suppressed outcome carrying the original (non-upper-cased) severity string,
with zero transport calls and nothing rendered (the email handler never
reaches body construction, the chat handler builds no payload). -/
theorem c2_suppression (cfg : EmailConfig) (t1 t2 : Except String Unit)
    (pn : String) (wh : Option String) (nf : NormalizedFinding) (s : String)
    (hsev : nf.severity = Json.str s)
    (hlow : ALLOWED_SEVERITIES.contains (strUpper s) = false) :
    emailAfterNormalize cfg t1 nf = (.suppressed (Json.str s), 0, false)
    ∧ slackAfterNormalize pn wh t2 nf = (.suppressed (Json.str s), 0, none) :=
  suppressed_of_low_severity cfg t1 t2 pn wh nf s hsev hlow

/-- Concrete instantiation of claim C2 at severity `Medium`. -/
theorem c2_suppression_witness :
    emailAfterNormalize cfgGood (.ok ()) nfMedium
      = (.suppressed (.str "Medium"), 0, false)
    ∧ slackAfterNormalize "AWS" (some "https://hooks.example.com/T") (.ok ()) nfMedium
      = (.suppressed (.str "Medium"), 0, none) :=
  c2_suppression cfgGood (.ok ()) (.ok ()) "AWS" (some "https://hooks.example.com/T")
    nfMedium "Medium" rfl rfl

/-- Claim C3: for every normalized finding whose severity upper-cases to
`CRITICAL` or `HIGH` (any letter case of the input) and whose title is a
string (as the finding data model prescribes), given valid delivery
configuration (truthy sender and a truthy first recipient for email; truthy
webhook URL for chat) and a successful transport, each handler returns the
ok outcome and exactly one transport call occurs in the invocation. -/
theorem c3_alert_dispatch (cfg : EmailConfig) (pn : String) (wh : Option String)
    (nf : NormalizedFinding) (s ts : String)
    (hsev : nf.severity = Json.str s)
    (hal : ALLOWED_SEVERITIES.contains (strUpper s) = true)
    (htitle : nf.title = Json.str ts)
    (hfrom : configTruthyStr cfg.fromEmail = true)
    (hto : cfg.toEmails.headD "" ≠ "")
    (hwh : configTruthyStr wh = true) :
    emailAfterNormalize cfg (.ok ()) nf = (.ok, 1, true)
    ∧ slackAfterNormalize pn wh (.ok ()) nf
        = (.ok, 1, some (slackPayload pn (strUpper s) nf)) := by
  have hal' : strUpper s ∈ ALLOWED_SEVERITIES := by simpa using hal
  obtain ⟨e0, rest, hcons⟩ : ∃ e0 rest, cfg.toEmails = e0 :: rest := by
    cases h : cfg.toEmails with
    | nil => rw [h] at hto; simp at hto
    | cons a l => exact ⟨a, l, rfl⟩
  have he0 : ¬ e0 = "" := by rw [hcons] at hto; simpa using hto
  constructor
  · simp [emailAfterNormalize, send_email, hsev, Json.pyStr, hal', hfrom, hcons,
      he0, htitle]
  · simp [slackAfterNormalize, send_to_slack, hsev, Json.pyStr, hal', hwh]

/-- Concrete instantiation of claim C3 at severity `High` (mixed case). -/
theorem c3_alert_dispatch_witness :
    emailAfterNormalize cfgGood (.ok ()) nfHigh = (.ok, 1, true)
    ∧ slackAfterNormalize "AWS" (some "https://hooks.example.com/T") (.ok ()) nfHigh
        = (.ok, 1, some (slackPayload "AWS" (strUpper "High") nfHigh)) :=
  c3_alert_dispatch cfgGood "AWS" (some "https://hooks.example.com/T") nfHigh
    "High" "Security Finding" rfl rfl rfl rfl (by decide) rfl

/-- Claim C4: for a normalized finding whose severity upper-cases into the
alert-worthy set, a missing (unset or empty) sender or first recipient makes
the email handler return the error outcome with zero transport calls, and a
missing webhook URL makes the chat handler return the error outcome with zero
transport calls: the configuration check runs before any network call. -/
theorem c4_config_error (cfg : EmailConfig) (pn : String) (wh : Option String)
    (t1 t2 : Except String Unit) (nf : NormalizedFinding) (s : String)
    (hsev : nf.severity = Json.str s)
    (hal : ALLOWED_SEVERITIES.contains (strUpper s) = true) :
    ((configTruthyStr cfg.fromEmail = false ∨ cfg.toEmails.headD "" = "") →
      ∃ msg, emailAfterNormalize cfg t1 nf = (.error msg, 0, false))
    ∧ (configTruthyStr wh = false →
      slackAfterNormalize pn wh t2 nf
        = (.error "SLACK_WEBHOOK_URL not set", 0,
           some (slackPayload pn (strUpper s) nf))) := by
  have hal' : strUpper s ∈ ALLOWED_SEVERITIES := by simpa using hal
  constructor
  · intro hbad
    cases hf : configTruthyStr cfg.fromEmail with
    | false =>
        exact ⟨"FROM_EMAIL not set",
          by simp [emailAfterNormalize, send_email, hsev, Json.pyStr, hal', hf]⟩
    | true =>
        have hhead : cfg.toEmails.headD "" = "" := by
          cases hbad with
          | inl h => rw [hf] at h; cases h
          | inr h => exact h
        refine ⟨"TO_EMAILS not set", ?_⟩
        cases hc : cfg.toEmails with
        | nil =>
            simp [emailAfterNormalize, send_email, hsev, Json.pyStr, hal', hf, hc]
        | cons a l =>
            have ha : a = "" := by rw [hc] at hhead; simpa using hhead
            simp [emailAfterNormalize, send_email, hsev, Json.pyStr, hal', hf, hc, ha]
  · intro hwh
    simp [slackAfterNormalize, send_to_slack, hsev, Json.pyStr, hal', hwh]

/-- Concrete instantiation of claim C4: unset sender for email, unset webhook
URL for chat, with a `CRITICAL` finding. -/
theorem c4_config_error_witness :
    (∃ msg, emailAfterNormalize cfgNoFrom (.ok ()) nfCritical
      = (.error msg, 0, false))
    ∧ slackAfterNormalize "AWS" none (.ok ()) nfCritical
        = (.error "SLACK_WEBHOOK_URL not set", 0,
           some (slackPayload "AWS" (strUpper "CRITICAL") nfCritical)) :=
  ⟨(c4_config_error cfgNoFrom "AWS" none (.ok ()) (.ok ()) nfCritical "CRITICAL"
      rfl rfl).1 (Or.inl rfl),
   (c4_config_error cfgNoFrom "AWS" none (.ok ()) (.ok ()) nfCritical "CRITICAL"
      rfl rfl).2 rfl⟩

/-- Claim C5 as stated is false: for an alert-worthy finding with no creation
timestamp, the chat handler's outbound payload still contains the `footer`
key — set to Python `None`, serialized as JSON `null` — rather than omitting
it: the source writes `"footer": ... if created_at else None`, so the key is
always present. -/
theorem c5_counterexample :
    (slack_lambda_handler "AWS" (some "https://hooks.example.com/T") (.ok ())
        (.ok noTimestampMessage)).map
      (fun out => (out.1, out.2.1, out.2.2.map (fun p => attachmentField p "footer")))
    = .ok (.ok, 1, some (some .null)) := rfl

/-- Claim C5, amended: for every alert-worthy finding rendered for the chat
channel, the payload is an object whose single attachment carries a color
string, a text string, and a `footer` key that is always present: the string
`"CreatedAt: <timestamp>"` when a truthy creation timestamp is present, and
JSON `null` (Python `None`) otherwise. -/
theorem c5_amended (pn nsev : String) (nf : NormalizedFinding) :
    attachmentField (slackPayload pn nsev nf) "color"
      = some (.str (severityColor nsev))
    ∧ attachmentField (slackPayload pn nsev nf) "text"
        = some (.str (attachmentText pn nsev nf))
    ∧ attachmentField (slackPayload pn nsev nf) "footer"
        = some (if nf.created_at.truthy
                then .str ("CreatedAt: " ++ nf.created_at.pyStr)
                else .null) :=
  ⟨rfl, rfl, rfl⟩

/-- Claim C6 as stated is false on two counts.  First, the output entry does
not carry the record's original `recordId`: the router passes it through
`sanitize_log`, so a recordId containing a tab comes back with the tab
replaced by a space (`"a\tb"` becomes `"a b"`).  Second, a record with no
`data` key does not yield a `ProcessingFailed` entry: the `except` branch
itself evaluates `record["data"]`, so the `KeyError` escapes the handler and
the whole batch aborts with no output list at all. -/
theorem c6_counterexample :
    processRecord decodeTable (.obj [("recordId", .str "a\tb"),
        ("data", .str "eyJhY3Rpb24iOiAiQkxPQ0sifQ==")])
      = .ok { recordId := "a b", result := "Ok",
              data := .str "eyJhY3Rpb24iOiAiQkxPQ0sifQ==",
              partitionKey := some "blocked" }
    ∧ ("a b" : String) ≠ "a\tb"
    ∧ waf_lambda_handler decodeTable (.obj [("records", .arr [
        .obj [("recordId", .str "r2")]])])
      = .error "KeyError: data" :=
  ⟨rfl, by decide, rfl⟩

/-- Inside `routeAttempt`, a successful outcome is always the `Ok` entry
built from the given record id and data value. -/
theorem routeAttempt_ok (decode : String → Except String Json) (rid : String)
    (dJ : Json) (out : OutputRecord)
    (h : routeAttempt decode rid dJ = .ok out) :
    out.recordId = rid ∧ out.result = "Ok" ∧ out.data = dJ := by
  unfold routeAttempt at h
  cases hb : b64Input dJ with
  | error e => rw [hb] at h; simp at h
  | ok s =>
      rw [hb] at h
      simp only [exceptBindOk] at h
      cases hd : decode s with
      | error e => rw [hd] at h; simp at h
      | ok w =>
          rw [hd] at h
          simp only [exceptBindOk] at h
          cases hg : w.pyGetD "action" (.str "ALLOW") with
          | error e => rw [hg] at h; simp at h
          | ok a =>
              rw [hg] at h
              simp only [exceptBindOk] at h
              cases hu : a.pyUpper with
              | error e => rw [hu] at h; simp at h
              | ok au =>
                  rw [hu] at h
                  simp only [exceptBindOk, exceptPureEq, Except.ok.injEq] at h
                  rw [← h]
                  exact ⟨rfl, rfl, rfl⟩

/-- For any record that is a dict with a `data` member, `processRecord`
computes exactly this: the `Ok` entry built by `routeAttempt` when the
attempt (decode, parse, action extraction) succeeds, and the
`ProcessingFailed` entry carrying the same sanitized record id and the same
data value when the attempt raises. -/
theorem processRecord_obj_data (decode : String → Except String Json)
    (kvs : List (String × Json)) (v : Json)
    (hdata : lookupF kvs "data" = some v) :
    processRecord decode (.obj kvs)
      = .ok (match routeAttempt decode
              (sanitize_log ((lookupF kvs "recordId").getD (.str "unknown"))) v with
             | .ok out => out
             | .error _ =>
                 { recordId := sanitize_log ((lookupF kvs "recordId").getD (.str "unknown")),
                   result := "ProcessingFailed", data := v, partitionKey := none }) := by
  have hidx : Json.pyIdxStr (.obj kvs) "data" = .ok v := by
    simp [Json.pyIdxStr, hdata]
  cases hatt : routeAttempt decode
      (sanitize_log ((lookupF kvs "recordId").getD (.str "unknown"))) v with
  | ok out => simp [processRecord, Json.pyGetD, hidx, hatt]
  | error e => simp [processRecord, Json.pyGetD, hidx, hatt]

/-- Claim C6, amended: for every batch whose records are all dicts carrying a
`data` member, the router returns an output list of exactly the input length;
each output entry carries the record's `data` value byte-for-byte unchanged
and the record's `recordId` after `sanitize_log` (carriage returns, newlines
and tabs replaced by spaces; `"unknown"` when absent); when the per-record
attempt succeeds the entry is exactly its `Ok` entry, and when the attempt
raises — in particular whenever `decode` itself fails, per the final
conjunct — the entry is `ProcessingFailed`, without aborting the rest of the
batch.  (A record with no `data` member, by contrast, aborts the whole
batch, and the recordId is sanitized rather than original — the two
corrections forced by the counterexample.) -/
theorem c6_amended (decode : String → Except String Json) (records : List Json)
    (hrec : ∀ r ∈ records, ∃ kvs v, r = .obj kvs ∧ lookupF kvs "data" = some v) :
    (∃ out, waf_lambda_handler decode (.obj [("records", .arr records)]) = .ok out
      ∧ out.length = records.length
      ∧ List.Forall₂ (fun (r : Json) (o : OutputRecord) =>
          ∃ kvs v, r = .obj kvs ∧ lookupF kvs "data" = some v
            ∧ o.data = v
            ∧ o.recordId = sanitize_log ((lookupF kvs "recordId").getD (.str "unknown"))
            ∧ (∀ ok0 : OutputRecord,
                routeAttempt decode
                  (sanitize_log ((lookupF kvs "recordId").getD (.str "unknown"))) v
                  = .ok ok0 →
                o = ok0 ∧ o.result = "Ok")
            ∧ (∀ e : String,
                routeAttempt decode
                  (sanitize_log ((lookupF kvs "recordId").getD (.str "unknown"))) v
                  = .error e →
                o.result = "ProcessingFailed" ∧ o.partitionKey = none)) records out)
    ∧ (∀ (rid s e : String), decode s = .error e →
        routeAttempt decode rid (.str s) = .error e) := by
  constructor
  · have main : ∀ (rs : List Json),
        (∀ r ∈ rs, ∃ kvs v, r = .obj kvs ∧ lookupF kvs "data" = some v) →
        ∃ out, processAll decode rs = .ok out
          ∧ List.Forall₂ (fun (r : Json) (o : OutputRecord) =>
              ∃ kvs v, r = .obj kvs ∧ lookupF kvs "data" = some v
                ∧ o.data = v
                ∧ o.recordId = sanitize_log ((lookupF kvs "recordId").getD (.str "unknown"))
                ∧ (∀ ok0 : OutputRecord,
                    routeAttempt decode
                      (sanitize_log ((lookupF kvs "recordId").getD (.str "unknown"))) v
                      = .ok ok0 →
                    o = ok0 ∧ o.result = "Ok")
                ∧ (∀ e : String,
                    routeAttempt decode
                      (sanitize_log ((lookupF kvs "recordId").getD (.str "unknown"))) v
                      = .error e →
                    o.result = "ProcessingFailed" ∧ o.partitionKey = none)) rs out := by
      intro rs
      induction rs with
      | nil => intro _; exact ⟨[], rfl, List.Forall₂.nil⟩
      | cons r rest ih =>
          intro hall
          obtain ⟨kvs, v, hr, hdata⟩ := hall r (by simp)
          obtain ⟨outRest, hrest, hforall⟩ := ih (fun x hx => hall x (by simp [hx]))
          have heq := processRecord_obj_data decode kvs v hdata
          cases hatt : routeAttempt decode
              (sanitize_log ((lookupF kvs "recordId").getD (.str "unknown"))) v with
          | ok o0 =>
              obtain ⟨h1, h2, h3⟩ := routeAttempt_ok _ _ _ _ hatt
              simp only [hatt] at heq
              refine ⟨o0 :: outRest, ?_, ?_⟩
              · simp [processAll, hr, heq, hrest]
              · refine List.Forall₂.cons ⟨kvs, v, hr, hdata, h3, h1, ?_, ?_⟩ hforall
                · intro ok0 hok0
                  rw [hatt] at hok0
                  injection hok0 with h4
                  subst h4
                  exact ⟨rfl, h2⟩
                · intro e' he'
                  rw [hatt] at he'
                  simp at he'
          | error e0 =>
              simp only [hatt] at heq
              refine ⟨{ recordId := sanitize_log ((lookupF kvs "recordId").getD (.str "unknown")),
                        result := "ProcessingFailed", data := v,
                        partitionKey := none } :: outRest, ?_, ?_⟩
              · simp [processAll, hr, heq, hrest]
              · refine List.Forall₂.cons ⟨kvs, v, hr, hdata, rfl, rfl, ?_, ?_⟩ hforall
                · intro ok0 hok0
                  rw [hatt] at hok0
                  simp at hok0
                · intro e' he'
                  exact ⟨rfl, rfl⟩
    obtain ⟨out, hout, hforall⟩ := main records hrec
    exact ⟨out, by simp [waf_lambda_handler, Json.pyGetD, Json.pyIter, lookupF, hout],
           (List.Forall₂.length_eq hforall).symm, hforall⟩
  · intro rid s e h
    simp [routeAttempt, b64Input, h]

/-- Concrete instantiation of the amended claim C6 on a two-record batch: a
decodable record (with a tab in its recordId) and a record whose payload is
not valid base64.  The final conjunct evaluates the handler on this batch:
the failing record comes back `ProcessingFailed` with its data preserved,
next to the first record's `Ok` entry, with no abort. -/
theorem c6_amended_witness :
    (∃ out, waf_lambda_handler decodeTable (.obj [("records", .arr [
        .obj [("recordId", .str "a\tb"), ("data", .str "eyJhY3Rpb24iOiAiQkxPQ0sifQ==")],
        .obj [("recordId", .str "r9"), ("data", .str "not-base64")]])])
      = .ok out
      ∧ out.length = 2
      ∧ List.Forall₂ (fun (r : Json) (o : OutputRecord) =>
          ∃ kvs v, r = .obj kvs ∧ lookupF kvs "data" = some v
            ∧ o.data = v
            ∧ o.recordId = sanitize_log ((lookupF kvs "recordId").getD (.str "unknown"))
            ∧ (∀ ok0 : OutputRecord,
                routeAttempt decodeTable
                  (sanitize_log ((lookupF kvs "recordId").getD (.str "unknown"))) v
                  = .ok ok0 →
                o = ok0 ∧ o.result = "Ok")
            ∧ (∀ e : String,
                routeAttempt decodeTable
                  (sanitize_log ((lookupF kvs "recordId").getD (.str "unknown"))) v
                  = .error e →
                o.result = "ProcessingFailed" ∧ o.partitionKey = none))
        [.obj [("recordId", .str "a\tb"), ("data", .str "eyJhY3Rpb24iOiAiQkxPQ0sifQ==")],
         .obj [("recordId", .str "r9"), ("data", .str "not-base64")]] out)
    ∧ (∀ (rid s e : String), decodeTable s = .error e →
        routeAttempt decodeTable rid (.str s) = .error e)
    ∧ waf_lambda_handler decodeTable (.obj [("records", .arr [
        .obj [("recordId", .str "a\tb"), ("data", .str "eyJhY3Rpb24iOiAiQkxPQ0sifQ==")],
        .obj [("recordId", .str "r9"), ("data", .str "not-base64")]])])
      = .ok [{ recordId := "a b", result := "Ok",
               data := .str "eyJhY3Rpb24iOiAiQkxPQ0sifQ==",
               partitionKey := some "blocked" },
             { recordId := "r9", result := "ProcessingFailed",
               data := .str "not-base64", partitionKey := none }] := by
  have h := c6_amended decodeTable
    [.obj [("recordId", .str "a\tb"), ("data", .str "eyJhY3Rpb24iOiAiQkxPQ0sifQ==")],
     .obj [("recordId", .str "r9"), ("data", .str "not-base64")]]
    (by intro r hr
        simp only [List.mem_cons, List.not_mem_nil, or_false] at hr
        cases hr with
        | inl hcase => exact ⟨_, .str "eyJhY3Rpb24iOiAiQkxPQ0sifQ==", hcase, rfl⟩
        | inr hcase => exact ⟨_, .str "not-base64", hcase, rfl⟩)
  exact ⟨h.1, h.2, rfl⟩

/-- Claim C7 as stated is false on two counts.  First, the router upper-cases
the action before comparing, so a record whose decoded payload has
`action: "block"` (not the exact string `"BLOCK"`) is still assigned partition
`blocked`.  Second, a non-string action value (here `42`) does not yield
partition `allowed`: `.upper()` raises `AttributeError`, which the per-record
handler converts into a `ProcessingFailed` entry. -/
theorem c7_counterexample :
    processRecord decodeTable (.obj [("recordId", .str "r1"),
        ("data", .str "eyJhY3Rpb24iOiAiYmxvY2sifQ==")])
      = .ok { recordId := "r1", result := "Ok",
              data := .str "eyJhY3Rpb24iOiAiYmxvY2sifQ==",
              partitionKey := some "blocked" }
    ∧ decodeTable "eyJhY3Rpb24iOiAiYmxvY2sifQ==" = .ok (.obj [("action", .str "block")])
    ∧ ("block" : String) ≠ "BLOCK"
    ∧ processRecord decodeTable (.obj [("recordId", .str "r3"),
        ("data", .str "eyJhY3Rpb24iOiA0Mn0=")])
      = .ok { recordId := "r3", result := "ProcessingFailed",
              data := .str "eyJhY3Rpb24iOiA0Mn0=", partitionKey := none } :=
  ⟨rfl, rfl, by decide, rfl⟩

/-- Claim C7, amended: for a record whose payload decodes and parses to a
dict, the assigned partition key is `blocked` exactly when the `action` field
is a string whose upper-cased, sanitized form equals `"BLOCK"`
(case-insensitively), and `allowed` for any other string value or a missing
`action` field; a non-string `action` value raises inside the per-record
`try` and yields a `ProcessingFailed` entry instead. -/
theorem c7_amended (decode : String → Except String Json) (rid d : String)
    (w : List (String × Json)) (hdec : decode d = .ok (.obj w)) :
    (∀ a : String, lookupF w "action" = some (.str a) →
      processRecord decode (.obj [("recordId", .str rid), ("data", .str d)])
        = .ok { recordId := sanitizeStr rid, result := "Ok", data := .str d,
                partitionKey := some (if sanitizeStr (strUpper a) = "BLOCK"
                                      then "blocked" else "allowed") })
    ∧ (lookupF w "action" = none →
      processRecord decode (.obj [("recordId", .str rid), ("data", .str d)])
        = .ok { recordId := sanitizeStr rid, result := "Ok", data := .str d,
                partitionKey := some "allowed" })
    ∧ (∀ v : Json, lookupF w "action" = some v → (∀ a : String, v ≠ .str a) →
      processRecord decode (.obj [("recordId", .str rid), ("data", .str d)])
        = .ok { recordId := sanitizeStr rid, result := "ProcessingFailed",
                data := .str d, partitionKey := none }) := by
  refine ⟨?_, ?_, ?_⟩
  · intro a ha
    simp [processRecord, routeAttempt, Json.pyGetD, Json.pyIdxStr, lookupF,
          b64Input, hdec, ha, Json.pyUpper, sanitize_log, Json.pyStr]
  · intro hnone
    have hAllow : ¬ sanitizeStr (strUpper "ALLOW") = "BLOCK" := by decide
    simp [processRecord, routeAttempt, Json.pyGetD, Json.pyIdxStr, lookupF,
          b64Input, hdec, hnone, Json.pyUpper, sanitize_log, Json.pyStr, hAllow]
  · intro v hv hns
    cases v with
    | str a => exact absurd rfl (hns a)
    | null =>
        simp [processRecord, routeAttempt, Json.pyGetD, Json.pyIdxStr, lookupF,
              b64Input, hdec, hv, Json.pyUpper, sanitize_log, Json.pyStr]
    | bool b =>
        simp [processRecord, routeAttempt, Json.pyGetD, Json.pyIdxStr, lookupF,
              b64Input, hdec, hv, Json.pyUpper, sanitize_log, Json.pyStr]
    | num n =>
        simp [processRecord, routeAttempt, Json.pyGetD, Json.pyIdxStr, lookupF,
              b64Input, hdec, hv, Json.pyUpper, sanitize_log, Json.pyStr]
    | arr xs =>
        simp [processRecord, routeAttempt, Json.pyGetD, Json.pyIdxStr, lookupF,
              b64Input, hdec, hv, Json.pyUpper, sanitize_log, Json.pyStr]
    | obj kvs =>
        simp [processRecord, routeAttempt, Json.pyGetD, Json.pyIdxStr, lookupF,
              b64Input, hdec, hv, Json.pyUpper, sanitize_log, Json.pyStr]

/-- Concrete instantiation of the amended claim C7: the lowercase action
`"block"` is routed to partition `blocked`. -/
theorem c7_amended_witness :
    processRecord decodeTable (.obj [("recordId", .str "w7"),
        ("data", .str "eyJhY3Rpb24iOiAiYmxvY2sifQ==")])
      = .ok { recordId := sanitizeStr "w7", result := "Ok",
              data := .str "eyJhY3Rpb24iOiAiYmxvY2sifQ==",
              partitionKey := some (if sanitizeStr (strUpper "block") = "BLOCK"
                                    then "blocked" else "allowed") } :=
  (c7_amended decodeTable "w7" "eyJhY3Rpb24iOiAiYmxvY2sifQ=="
    [("action", .str "block")] rfl).1 "block" rfl

/-- Claim C8: resource resolution.  In the structured variant, an
EC2-instance-typed entry at the head of the resources array with uid `id` and
tag `Name = name` resolves to `"name (id)"`, and without a `Name` tag to the
bare `id`; in the classic variant, a first resource with `Id = id` and no
`Name` tag resolves to the bare `id`.  Concretely, the structured finding
with uid `i-123` and tag `Name = web-1` normalizes to resource
`"web-1 (i-123)"` and the classic finding with first resource `Id = i-456`
normalizes to resource `"i-456"`, in both handlers. -/
theorem c8_resource_resolution :
    (∀ (id name : String) (rest : List Json) (res : Json),
      resolveStructured
        (.obj [("type", .str "AWS::EC2::Instance"), ("uid", .str id),
               ("Tags", .obj [("Name", .str name)])] :: rest) res
        = .ok (.str (name ++ " (" ++ id ++ ")")))
    ∧ (∀ (id : String) (rest : List Json) (res : Json),
      resolveStructured
        (.obj [("type", .str "AWS::EC2::Instance"), ("uid", .str id)] :: rest) res
        = .ok (.str id))
    ∧ (∀ (id : String) (rest : List Json) (res : Json),
      resolveClassic (.arr (.obj [("Id", .str id)] :: rest)) res = .ok (.str id))
    ∧ ((normalizeEmail structuredResourceMessage).map (fun nf => nf.resource)
        = .ok (.str "web-1 (i-123)"))
    ∧ ((normalizeSlack structuredResourceMessage).map (fun nf => nf.resource)
        = .ok (.str "web-1 (i-123)"))
    ∧ ((normalizeEmail classicResourceMessage).map (fun nf => nf.resource)
        = .ok (.str "i-456"))
    ∧ ((normalizeSlack classicResourceMessage).map (fun nf => nf.resource)
        = .ok (.str "i-456")) :=
  ⟨fun _ _ _ _ => rfl, fun _ _ _ => rfl, fun _ _ _ => rfl, rfl, rfl, rfl, rfl⟩

/-- Claim C9 as stated is false: `json.loads` can successfully produce a
non-dict message — for example the JSON number `5` — which contains no
finding array, yet the handler raises `AttributeError` at
`message.get("account", ...)` instead of returning the suppressed outcome;
likewise a dict message whose `detail` value is a number raises `TypeError`
at the `"findings" in message["detail"]` test. -/
theorem c9_counterexample :
    email_lambda_handler cfgGood (.ok ()) (.ok (.num 5))
      = .error "AttributeError: get"
    ∧ slack_lambda_handler "AWS" (some "https://hooks.example.com/T") (.ok ())
        (.ok (.num 5))
      = .error "AttributeError: get"
    ∧ email_lambda_handler cfgGood (.ok ()) (.ok (.obj [("detail", .num 5)]))
      = .error "TypeError: argument not a container" :=
  ⟨rfl, rfl, rfl⟩

/-- Claim C9, amended: for every successfully unwrapped message that is a
dict and for which the findings-presence test (`"detail" in message and
"findings" in message["detail"]`) evaluates to false without raising — no
`detail` key, or a `detail` value that is a container without `findings` —
normalization applies all defaults without error, severity stays `"UNKNOWN"`,
and both handlers return exactly the suppressed outcome carrying
`"UNKNOWN"`. -/
theorem c9_amended (cfg : EmailConfig) (pn : String) (wh : Option String)
    (t1 t2 : Except String Unit) (kvs : List (String × Json))
    (hcond : findingsCond (.obj kvs) = .ok false) :
    email_lambda_handler cfg t1 (.ok (.obj kvs))
      = .ok (.suppressed (.str "UNKNOWN"), 0, false)
    ∧ slack_lambda_handler pn wh t2 (.ok (.obj kvs))
        = .ok (.suppressed (.str "UNKNOWN"), 0, none) := by
  have hnf : ∀ norm : Json → Except String NormalizedFinding, norm = normalizeEmail ∨
      norm = normalizeSlack → norm (.obj kvs) = .ok
      { title := .str "Security Finding", severity := .str "UNKNOWN",
        product := .str "Security Hub",
        account := (lookupF kvs "account").getD (.str "Unknown"),
        region := (lookupF kvs "region").getD (.str "Unknown"),
        resource := .str "Unknown", description := .str "",
        console_url := .str defaultConsoleUrl, created_at := .null,
        types := .arr [], threats := .arr [], remediation := .str "" } := by
    rintro norm (rfl | rfl) <;>
      simp [normalizeEmail, normalizeSlack, Json.pyGetD, hcond]
  have hs := suppressed_of_low_severity cfg t1 t2 pn wh
    { title := .str "Security Finding", severity := .str "UNKNOWN",
      product := .str "Security Hub",
      account := (lookupF kvs "account").getD (.str "Unknown"),
      region := (lookupF kvs "region").getD (.str "Unknown"),
      resource := .str "Unknown", description := .str "",
      console_url := .str defaultConsoleUrl, created_at := .null,
      types := .arr [], threats := .arr [], remediation := .str "" }
    "UNKNOWN" rfl rfl
  constructor
  · simp [email_lambda_handler, hnf normalizeEmail (Or.inl rfl), hs.1]
  · simp [slack_lambda_handler, hnf normalizeSlack (Or.inr rfl), hs.2]

/-- Concrete instantiation of the amended claim C9: a dict message whose
`detail` value is a string not containing `"findings"`. -/
theorem c9_amended_witness :
    email_lambda_handler cfgGood (.ok ()) (.ok (.obj [("detail", .str "x")]))
      = .ok (.suppressed (.str "UNKNOWN"), 0, false)
    ∧ slack_lambda_handler "AWS" (some "https://hooks.example.com/T") (.ok ())
        (.ok (.obj [("detail", .str "x")]))
      = .ok (.suppressed (.str "UNKNOWN"), 0, none) :=
  c9_amended cfgGood "AWS" (some "https://hooks.example.com/T") (.ok ()) (.ok ())
    [("detail", .str "x")] rfl

/-- Claim C10: in the structured variant, a resources array all of whose
entries are dicts not typed `AWS::EC2::Instance` leaves the `resource`
variable at its incoming value, so the normalized resource stays at the
default `"Unknown"`; concretely, a structured finding whose only resource is
an S3 bucket normalizes to resource `"Unknown"` in both handlers. -/
theorem c10_no_ec2_default :
    (∀ (rs : List Json) (res : Json), rs.all notEC2Typed = true →
      resolveStructured rs res = .ok res)
    ∧ ((normalizeEmail s3ResourceMessage).map (fun nf => nf.resource)
        = .ok (.str "Unknown"))
    ∧ ((normalizeSlack s3ResourceMessage).map (fun nf => nf.resource)
        = .ok (.str "Unknown")) := by
  refine ⟨?_, rfl, rfl⟩
  intro rs
  induction rs with
  | nil => intro res _; rfl
  | cons r rest ih =>
      intro res hall
      simp only [List.all_cons, Bool.and_eq_true] at hall
      obtain ⟨hr, hrest⟩ := hall
      cases r with
      | obj kvs =>
          have ht : (match (lookupF kvs "type").getD Json.null with
              | Json.str s => s != "AWS::EC2::Instance"
              | _ => true) = true := by simpa [notEC2Typed] using hr
          cases hty : (lookupF kvs "type").getD .null with
          | str s =>
              rw [hty] at ht
              simp only [bne_iff_ne, ne_eq] at ht
              simp [resolveStructured, Json.pyGetD, hty, ht, ih res hrest]
          | null => simp [resolveStructured, Json.pyGetD, hty, ih res hrest]
          | bool b => simp [resolveStructured, Json.pyGetD, hty, ih res hrest]
          | num n => simp [resolveStructured, Json.pyGetD, hty, ih res hrest]
          | arr xs => simp [resolveStructured, Json.pyGetD, hty, ih res hrest]
          | obj kvs2 => simp [resolveStructured, Json.pyGetD, hty, ih res hrest]
      | null => simp [notEC2Typed] at hr
      | bool b => simp [notEC2Typed] at hr
      | num n => simp [notEC2Typed] at hr
      | str s => simp [notEC2Typed] at hr
      | arr xs => simp [notEC2Typed] at hr

/-- Concrete instantiation of claim C10's general part at a one-entry
resources list holding an S3 bucket. -/
theorem c10_no_ec2_default_witness :
    resolveStructured [.obj [("type", .str "AWS::S3::Bucket"), ("uid", .str "b-9")]]
      (.str "Unknown") = .ok (.str "Unknown") :=
  c10_no_ec2_default.1 [.obj [("type", .str "AWS::S3::Bucket"), ("uid", .str "b-9")]]
    (.str "Unknown") (by decide)
